import Mathlib

/-!
Shallow embedding of `lab/conversion.py` (class `Conversion`): a hierarchical
Binomial/Beta conversion-rate model specified through a probabilistic graph
(PyMC3) and fitted by an external MCMC sampler.

The probabilistic graph is modelled symbolically: a model is a list of free
(latent) random-variable declarations and a list of observed likelihood
declarations, with distribution parameters given as symbolic expressions over
the declared random variables.  The instance state of a `Conversion` object is
a record of its optional attributes (`nb_variants`, `model`, `named_vars`,
`trace`); `none` models an attribute that has not been assigned yet.

Two slips present in the source are embedded as they stand, since the source
is the authority:
* `fit` runs `self.model = self.create_model()`, omitting the required
  positional argument `X` of `create_model`; Python raises `TypeError` at the
  call, before the assignment and before `pm.sample()` is ever reached.
* `save` and `load` are declared without a `self` parameter, so an instance
  call (which passes the instance) raises `TypeError` before their
  `raise NotImplementedError` bodies run.
In addition, the line `return model` of the source sits at class-body
indentation (a Python syntax error); it is modelled at the end of
`create_model`, the only position where it is coherent, which is also the
behaviour the class docstring describes.
-/

namespace Lab

/-- Symbolic scalar expression over the random variables of a model graph:
rational constants, a reference to a named scalar random variable, a reference
to entry `i` of a named vector random variable, products and differences. -/
inductive Expr where
  | const : ℚ → Expr
  | rv : String → Expr
  | rvIdx : String → Nat → Expr
  | mul : Expr → Expr → Expr
  | sub : Expr → Expr → Expr
deriving DecidableEq, Repr

/-- The distributions that appear in `create_model`: `pm.Uniform`,
`pm.Pareto`, `pm.Beta` and `pm.Binomial`, with their parameters as symbolic
expressions (the Binomial trial count is a data integer in the source). -/
inductive Dist where
  | uniform : Expr → Expr → Dist
  | pareto : Expr → Expr → Dist
  | beta : Expr → Expr → Dist
  | binomial : ℤ → Expr → Dist
deriving DecidableEq, Repr

/-- A free (latent) random-variable declaration: its graph name, its prior,
its vector shape (`none` for a scalar, `some n` when `shape=n` is passed) and
its initial value (`testval`, when passed). -/
structure FreeRV where
  name : String
  dist : Dist
  shape : Option Nat
  testval : Option ℚ
deriving DecidableEq, Repr

/-- An observed likelihood declaration: its graph name, its distribution and
the observed value bound to it (`observed=...`). -/
structure ObservedRV where
  name : String
  dist : Dist
  observed : ℤ
deriving DecidableEq, Repr

/-- A fully specified model graph: the free random variables in declaration
order, then the observed likelihood terms in declaration order. -/
structure Model where
  free : List FreeRV
  observed : List ObservedRV
deriving DecidableEq, Repr

/-- A posterior trace: for each latent-variable name, an ordered sequence of
sampled values.  No code path of the source ever produces one. -/
abbrev Trace := List (String × List ℚ)

/-- The Python errors that the embedded entry points can raise. -/
inductive PyError where
  | typeError : String → PyError
  | notImplementedError : PyError
deriving DecidableEq, Repr

/-- Instance state of a `Conversion` object: its four optional attributes.
`none` models an attribute never assigned on the instance. -/
structure Conversion where
  nb_variants : Option Nat
  model : Option Model
  named_vars : Option (List (String × FreeRV))
  trace : Option Trace
deriving DecidableEq, Repr

/-- `lab.Conversion()`: a fresh instance, no attribute assigned yet. -/
def Conversion.new : Conversion := ⟨none, none, none, none⟩

/-- `phi = pm.Uniform(phi, 0, 1, testval=0.5)`. -/
def phi_rv : FreeRV :=
  ⟨"phi", Dist.uniform (Expr.const 0) (Expr.const 1), none, some (1 / 2)⟩

/-- `lmbda = pm.Pareto(lambda, 1.5, 0.1, testval=1)`. -/
def lambda_rv : FreeRV :=
  ⟨"lambda", Dist.pareto (Expr.const (3 / 2)) (Expr.const (1 / 10)), none, some 1⟩

/-- `true_rates = pm.Beta(p, phi*lmbda, lmbda*(1-phi), shape=self.nb_variants)`:
the shared prior for the true rates, a vector of `n` latent scalars whose Beta
parameters are the symbolic products of the `phi` and `lambda` variables. -/
def true_rates_rv (n : Nat) : FreeRV :=
  ⟨"p",
   Dist.beta (Expr.mul (Expr.rv "phi") (Expr.rv "lambda"))
     (Expr.mul (Expr.rv "lambda") (Expr.sub (Expr.const 1) (Expr.rv "phi"))),
   some n, none⟩

/-- The loop `for i, variant in enumerate(X)` of `create_model`, started at
index `start`: each variant contributes one observed Binomial term
`pm.Binomial(observed_values_i, variant[0], true_rates[i], observed=variant[1])`. -/
def observedTerms (X : List (ℤ × ℤ)) (start : Nat) : List ObservedRV :=
  match X with
  | [] => []
  | v :: rest =>
      ⟨"observed_values_" ++ toString start,
       Dist.binomial v.1 (Expr.rvIdx "p" start), v.2⟩ :: observedTerms rest (start + 1)

/-- `Conversion.create_model(self, X)`: sets `self.nb_variants = len(X)`,
declares `phi`, `lmbda` and `true_rates` in a `pm.Model()` block, adds one
observed Binomial per variant, then sets `self.named_vars` (the dictionary
mapping the string theta to the `true_rates` variable) and `self.model`, and
returns the model.  The source contains no validation and no raise statement
on this path, so the embedding is a total function: it returns the updated
instance state together with the built model graph. -/
def Conversion.create_model (self : Conversion) (X : List (ℤ × ℤ)) :
    Conversion × Model :=
  let nb : Nat := X.length
  let model : Model :=
    ⟨[phi_rv, lambda_rv, true_rates_rv nb], observedTerms X 0⟩
  ({ self with
      nb_variants := some nb,
      named_vars := some [("theta", true_rates_rv nb)],
      model := some model },
   model)

/-- The `TypeError` Python raises at `self.create_model()` inside `fit`:
`create_model` requires the positional argument `X` and none is passed. -/
def fit_type_error : PyError :=
  PyError.typeError "create_model missing 1 required positional argument X"

/-- `Conversion.fit(self, data)`: its first statement is
`self.model = self.create_model()`.  The call omits the required positional
argument `X` of `create_model`, so Python raises `TypeError` when invoking it,
before the assignment takes effect and before the `with self.model:` block and
`pm.sample()` are reached.  The embedding returns the instance state at the
point the exception escapes (unchanged) together with the raised error;
`data` is never read by the body. -/
def Conversion.fit (self : Conversion) (data : List (ℤ × ℤ)) :
    Conversion × Option PyError :=
  (self, some fit_type_error)

/-- The `TypeError` Python raises on `instance.save()`: the bound call passes
the instance, but `save` is declared with zero parameters. -/
def save_type_error : PyError :=
  PyError.typeError "save takes 0 positional arguments but 1 was given"

/-- The `TypeError` Python raises on `instance.load()`: the bound call passes
the instance, but `load` is declared with zero parameters. -/
def load_type_error : PyError :=
  PyError.typeError "load takes 0 positional arguments but 1 was given"

/-- `instance.save()`: `save` is declared as `def save():` with no `self`
parameter, so the bound call raises `TypeError` before the body
(`raise NotImplementedError`) can run.  The instance is untouched. -/
def Conversion.save (self : Conversion) : Conversion × Option PyError :=
  (self, some save_type_error)

/-- `instance.load()`: `load` is declared as `def load():` with no `self`
parameter, so the bound call raises `TypeError` before the body
(`raise NotImplementedError`) can run.  The instance is untouched. -/
def Conversion.load (self : Conversion) : Conversion × Option PyError :=
  (self, some load_type_error)

/-- The body common to `save` and `load` as written in the source,
`raise NotImplementedError`, reachable only through an unbound zero-argument
call on the class itself. -/
def save_load_body : Option PyError := some PyError.notImplementedError

/-- The three-variant example dataset of the class docstring and of the
behavioural spec: `[[100, 10], [103, 56], [120, 23]]` (trials, successes). -/
def exampleData : List (ℤ × ℤ) := [(100, 10), (103, 56), (120, 23)]

theorem observedTerms_length (X : List (ℤ × ℤ)) (start : Nat) :
    (observedTerms X start).length = X.length := by
  induction X generalizing start with
  | nil => rfl
  | cons v rest ih => simp [observedTerms, ih]

theorem observedTerms_getElem (X : List (ℤ × ℤ)) (start i : Nat)
    (h : i < X.length) :
    (observedTerms X start)[i]? =
      some ⟨"observed_values_" ++ toString (start + i),
        Dist.binomial (X.get ⟨i, h⟩).1 (Expr.rvIdx "p" (start + i)),
        (X.get ⟨i, h⟩).2⟩ := by
  induction X generalizing start i with
  | nil => exact absurd h (by simp)
  | cons v rest ih =>
      cases i with
      | zero => simp [observedTerms]
      | succ j =>
          have hj : j < rest.length := Nat.lt_of_succ_lt_succ h
          have := ih (start + 1) j hj
          simpa [observedTerms, Nat.add_assoc, Nat.add_comm 1 j] using this

/-- C1: for every instance state and every dataset of at least one variant,
the model built by `create_model` declares exactly three latent variables, in
order: `phi` with a Uniform(0,1) prior and initial value 0.5, `lambda` with a
Pareto(shape=1.5, scale=0.1) prior and initial value 1, and the true-rates
vector of exactly `X.length` latent scalars with a shared
Beta(phi*lambda, lambda*(1-phi)) prior using the same hyperparameter
expressions for every variant. -/
theorem create_model_priors (s : Conversion) (X : List (ℤ × ℤ))
    (h : 1 ≤ X.length) :
    (Conversion.create_model s X).2.free =
      [⟨"phi", Dist.uniform (Expr.const 0) (Expr.const 1), none, some (1 / 2)⟩,
       ⟨"lambda", Dist.pareto (Expr.const (3 / 2)) (Expr.const (1 / 10)),
        none, some 1⟩,
       ⟨"p",
        Dist.beta (Expr.mul (Expr.rv "phi") (Expr.rv "lambda"))
          (Expr.mul (Expr.rv "lambda") (Expr.sub (Expr.const 1) (Expr.rv "phi"))),
        some X.length, none⟩] := rfl

/-- C1 witness: the latent declarations at the concrete three-variant docstring
dataset. -/
theorem create_model_priors_witness :
    1 ≤ exampleData.length ∧
    (Conversion.create_model Conversion.new exampleData).2.free =
      [⟨"phi", Dist.uniform (Expr.const 0) (Expr.const 1), none, some (1 / 2)⟩,
       ⟨"lambda", Dist.pareto (Expr.const (3 / 2)) (Expr.const (1 / 10)),
        none, some 1⟩,
       ⟨"p",
        Dist.beta (Expr.mul (Expr.rv "phi") (Expr.rv "lambda"))
          (Expr.mul (Expr.rv "lambda") (Expr.sub (Expr.const 1) (Expr.rv "phi"))),
        some exampleData.length, none⟩] :=
  ⟨by decide, create_model_priors Conversion.new exampleData (by decide)⟩

/-- C2 (code bug): on the three-variant docstring dataset, `fit` does not
forward its dataset to the build step and does not sample; it raises
`TypeError` at `self.create_model()` immediately, leaving the instance
untouched and producing no trace. -/
theorem fit_example_raises :
    Conversion.fit Conversion.new exampleData =
      (Conversion.new, some fit_type_error) := rfl

/-- C3 counterexample: on the single observation (trials 10, successes 20),
`create_model` returns normally and declares a Binomial likelihood carrying
the invalid values unchanged, and `fit` raises `TypeError` (the missing
argument of `create_model`), not a validation error: no
`InvalidObservationError` is raised by either entry point. -/
theorem invalid_observation_not_rejected :
    (Conversion.create_model Conversion.new [((10 : ℤ), (20 : ℤ))]).2.observed =
      [⟨"observed_values_0", Dist.binomial 10 (Expr.rvIdx "p" 0), 20⟩] ∧
    Conversion.fit Conversion.new [((10 : ℤ), (20 : ℤ))] =
      (Conversion.new, some fit_type_error) :=
  ⟨rfl, rfl⟩

/-- C3 amended: the code performs no input validation.  For every instance
state and every single-variant dataset whose successes exceed its trials or
whose values are negative, `create_model` completes normally and emits one
Binomial likelihood with the invalid values unchanged, and `fit` fails with
the missing-argument `TypeError`, not with a validation error. -/
theorem no_validation_in_create_model (s : Conversion) (t k : ℤ)
    (h : t < k ∨ t < 0 ∨ k < 0) :
    (Conversion.create_model s [(t, k)]).2.observed =
      [⟨"observed_values_0", Dist.binomial t (Expr.rvIdx "p" 0), k⟩] ∧
    Conversion.fit s [(t, k)] = (s, some fit_type_error) :=
  ⟨rfl, rfl⟩

/-- C3 amended witness: the invalid single observation (10, 20). -/
theorem no_validation_in_create_model_witness :
    ((10 : ℤ) < 20 ∨ (10 : ℤ) < 0 ∨ (20 : ℤ) < 0) ∧
    ((Conversion.create_model Conversion.new [((10 : ℤ), (20 : ℤ))]).2.observed =
        [⟨"observed_values_0", Dist.binomial 10 (Expr.rvIdx "p" 0), 20⟩] ∧
      Conversion.fit Conversion.new [((10 : ℤ), (20 : ℤ))] =
        (Conversion.new, some fit_type_error)) :=
  ⟨by decide, no_validation_in_create_model Conversion.new 10 20 (by decide)⟩

/-- C4 counterexample: on the empty dataset `create_model` returns normally —
it builds a graph whose true-rates vector has shape 0 and which has no
likelihood term, and assigns the instance attributes — and `fit` raises the
missing-argument `TypeError`, not an empty-dataset error: no
`EmptyDatasetError` is raised by either entry point. -/
theorem empty_dataset_not_rejected :
    Conversion.create_model Conversion.new [] =
      ({ Conversion.new with
          nb_variants := some 0,
          named_vars := some [("theta", true_rates_rv 0)],
          model := some ⟨[phi_rv, lambda_rv, true_rates_rv 0], []⟩ },
       ⟨[phi_rv, lambda_rv, true_rates_rv 0], []⟩) ∧
    Conversion.fit Conversion.new [] = (Conversion.new, some fit_type_error) :=
  ⟨rfl, rfl⟩

/-- C4 amended: for every instance state, the empty dataset is not rejected:
`create_model` completes normally, returning a graph with a zero-length
true-rates vector and no likelihood terms, and `fit` fails with the
missing-argument `TypeError`, not with an empty-dataset error. -/
theorem empty_dataset_builds_empty_graph (s : Conversion) :
    (Conversion.create_model s []).2 =
      ⟨[phi_rv, lambda_rv, true_rates_rv 0], []⟩ ∧
    Conversion.fit s [] = (s, some fit_type_error) :=
  ⟨rfl, rfl⟩

/-- C5: for every instance state, every dataset and every index in range, the
built graph carries exactly one observed Binomial likelihood per variant, and
the term for variant `i` has trial count the first component of the i-th
observation, success probability the i-th entry of the true-rates vector,
and observed value the second component of the i-th observation. -/
theorem create_model_likelihoods (s : Conversion) (X : List (ℤ × ℤ)) (i : Nat)
    (h : i < X.length) :
    (Conversion.create_model s X).2.observed.length = X.length ∧
    (Conversion.create_model s X).2.observed[i]? =
      some ⟨"observed_values_" ++ toString i,
        Dist.binomial (X.get ⟨i, h⟩).1 (Expr.rvIdx "p" i),
        (X.get ⟨i, h⟩).2⟩ := by
  constructor
  · simpa [Conversion.create_model] using observedTerms_length X 0
  · simpa [Conversion.create_model] using observedTerms_getElem X 0 i h

/-- C5 witness: the middle likelihood of the docstring dataset has trial
count 103, probability entry 1 of the true-rates vector, observed value 56. -/
theorem create_model_likelihoods_witness :
    (Conversion.create_model Conversion.new exampleData).2.observed.length =
      exampleData.length ∧
    (Conversion.create_model Conversion.new exampleData).2.observed[1]? =
      some ⟨"observed_values_" ++ toString 1,
        Dist.binomial (exampleData.get ⟨1, by decide⟩).1 (Expr.rvIdx "p" 1),
        (exampleData.get ⟨1, by decide⟩).2⟩ :=
  create_model_likelihoods Conversion.new exampleData 1 (by decide)

/-- C6 counterexample: in the graph built from the docstring dataset the
latent names are phi, lambda and p — the true-rates vector is declared under
the name p, and theta is not the name of any latent variable, so a posterior
trace keyed by latent names would not contain theta. -/
theorem theta_not_a_latent_name :
    (Conversion.create_model Conversion.new exampleData).2.free.map FreeRV.name =
      ["phi", "lambda", "p"] ∧
    ¬ ("theta" ∈
        (Conversion.create_model Conversion.new exampleData).2.free.map FreeRV.name) :=
  ⟨rfl, by decide⟩

/-- C6 amended: for every instance state and dataset, `create_model` returns
the graph alone and stores on the instance the lookup mapping theta to the
true-rates variable; that variable is named p in the graph, whose latent
names are phi, lambda and p, so a trace keyed by latent-variable names uses
p, not theta, for the true-rates vector. -/
theorem named_vars_maps_theta_to_p (s : Conversion) (X : List (ℤ × ℤ)) :
    (Conversion.create_model s X).1.named_vars =
      some [("theta", true_rates_rv X.length)] ∧
    (true_rates_rv X.length).name = "p" ∧
    (Conversion.create_model s X).2.free.map FreeRV.name =
      ["phi", "lambda", "p"] :=
  ⟨rfl, rfl, rfl⟩

/-- C7 (code bug): for every instance state, an instance call to `save` or
`load` fails with `TypeError` — the methods are declared without a `self`
parameter, so the bound call never reaches their bodies — while the bodies
themselves, as written, raise `NotImplementedError`. -/
theorem save_load_raise_type_error (s : Conversion) :
    Conversion.save s = (s, some save_type_error) ∧
    Conversion.load s = (s, some load_type_error) ∧
    save_load_body = some PyError.notImplementedError :=
  ⟨rfl, rfl, rfl⟩

/-- C8: every failing `fit` call surfaces its error to the caller and leaves
the previously stored trace unchanged (no handler exists in the code, and the
error is raised before any assignment to the instance). -/
theorem failed_fit_preserves_trace (s : Conversion) (d : List (ℤ × ℤ))
    (e : PyError) (h : (Conversion.fit s d).2 = some e) :
    (Conversion.fit s d).1.trace = s.trace := rfl

/-- C8 witness: the failing fit at the docstring dataset on a fresh instance
leaves the (absent) trace unchanged. -/
theorem failed_fit_preserves_trace_witness :
    (Conversion.fit Conversion.new exampleData).2 = some fit_type_error ∧
    (Conversion.fit Conversion.new exampleData).1.trace = Conversion.new.trace :=
  ⟨rfl, failed_fit_preserves_trace Conversion.new exampleData fit_type_error rfl⟩

/-- C9 counterexample: `create_model` mutates the instance: on a fresh
instance and a one-variant dataset it sets the `nb_variants` attribute, which
was previously unset. -/
theorem create_model_mutates_instance :
    (Conversion.create_model Conversion.new [((100 : ℤ), (10 : ℤ))]).1.nb_variants ≠
      Conversion.new.nb_variants := by
  decide

/-- C9 amended: for every instance state and dataset, `create_model` does not
read or change the stored trace and returns the built graph, but as side
effects it stores the variant count, the theta lookup and the graph itself on
the instance. -/
theorem create_model_state_effects (s : Conversion) (X : List (ℤ × ℤ)) :
    Conversion.create_model s X =
      ({ s with
          nb_variants := some X.length,
          named_vars := some [("theta", true_rates_rv X.length)],
          model := some ⟨[phi_rv, lambda_rv, true_rates_rv X.length],
            observedTerms X 0⟩ },
       ⟨[phi_rv, lambda_rv, true_rates_rv X.length], observedTerms X 0⟩) ∧
    (Conversion.create_model s X).1.trace = s.trace :=
  ⟨rfl, rfl⟩

/-- C10: the outcome of `fit` is independent of its dataset argument: for any
two datasets and the same starting instance state, the calls return identical
results, because the body never reads `data` (it calls `create_model` with no
argument and raises there). -/
theorem fit_ignores_data (d1 d2 : List (ℤ × ℤ)) (s : Conversion) :
    Conversion.fit s d1 = Conversion.fit s d2 := rfl

end Lab
